import Mathlib

/-!
Shallow embedding of the cicero repository (Go) for verification of its
specification claims.

The embedding covers:
- `MD5Sum.Scan` from `src/src/domain/types.go`;
- the invoker message-subject handling, step loops, certificate publishing
  and limiter discipline from `src/src/invoker.go` and `src/unnamed/part_001`;
- the step-instance transaction of `InvokerCmd.invokeWorkflowStep` from
  `src/unnamed/part_001`;
- the promtail logging augmentation `addLogging` from `src/unnamed/part_001`;
- the Nomad event consumer loop and allocation handler from
  `src/unnamed/part_002`.

External effects (database, job runner, message bus) are modelled as explicit
state and oracle parameters for the results of the external calls; Go panics
are modelled as explicit outcomes.
-/

namespace Cicero

/-! ## MD5Sum.Scan (src/src/domain/types.go lines 188-197) -/

/-- A dynamically typed Go value handed to a database `Scan` method: either a
byte slice, or a value of some other type (carrying only its type name, which
Go prints in the error message). -/
inductive GoValue where
  | bytes (b : List UInt8)
  | other (tyName : String)
deriving DecidableEq

/-- `MD5Sum.Scan` from `src/src/domain/types.go` lines 190-197.

The receiver is the 16-byte array `self` (as a list of its bytes).  Go
`copy(self[:], b)` copies `min (length self) (length b)` bytes into the front
of `self` and returns that count; `Scan` errors when the value is not a byte
slice or when the copied count differs from 16.  The result is the new
contents of the receiver together with the error, since Go mutates the
receiver even on the short-input error path. -/
def md5sumScan (self : List UInt8) (value : GoValue) : List UInt8 × Option String :=
  match value with
  | GoValue.other t => (self, some ("Cannot scan " ++ t ++ " into MD5Sum"))
  | GoValue.bytes b =>
    let copied := min self.length b.length
    let newSelf := b.take copied ++ self.drop copied
    if copied = self.length then (newSelf, none)
    else (newSelf, some "Could only copy bytes into MD5Sum")

/-! ## Invoker subject parsing (src/src/invoker.go lines 98-120,
src/unnamed/part_001 lines 102-128) -/

/-- `strings.Split s "."` of Go, written as structural recursion over the
characters so that it reduces in the kernel.  Go returns `[""]` on the empty
string and keeps empty segments, as this does. -/
def splitDotAux : List Char → List Char → List String
  | [], acc => [String.mk acc.reverse]
  | c :: rest, acc =>
    if c = '.' then String.mk acc.reverse :: splitDotAux rest []
    else splitDotAux rest (c :: acc)

/-- `strings.Split subject "."`. -/
def goSplitDot (s : String) : List String :=
  splitDotAux s.data []

/-- Go `strconv.ParseUint s 10 64`: fails on the empty string, on any
non-digit character, and on overflow past `2 ^ 64 - 1`. -/
def goParseUint64 (s : String) : Option Nat :=
  if s.data.isEmpty then none
  else if s.data.all Char.isDigit then
    let n := s.data.foldl (fun a c => a * 10 + (c.toNat - 48)) 0
    if n < 2 ^ 64 then some n else none
  else none

/-- Go slice indexing `xs[i]`: out of range is a runtime panic, modelled as an
explicit error. -/
def goIndex (xs : List String) (i : Nat) : Except String String :=
  if h : i < xs.length then Except.ok (xs.get ⟨i, h⟩)
  else Except.error "index out of range"

/-- Outcome of the invoker subscriber on one message, as far as the subject
string determines it. -/
inductive SubjectOutcome where
  | panicked (msg : String)
  | dropped
  | invoked (workflowName : String) (id : Nat)
deriving DecidableEq

/-- `true` exactly on the `panicked` outcome. -/
def SubjectOutcome.isPanic : SubjectOutcome → Bool
  | SubjectOutcome.panicked _ => true
  | _ => false

/-- The subject handling common to both `InvokerCmd.invokerSubscriber`
variants (`src/src/invoker.go` lines 107-113, `src/unnamed/part_001` lines
115-121): split the subject on `.`, read `parts[1]` as the workflow name and
`parts[2]` as the numeric id; a failed numeric parse drops the message with a
warning; an out-of-range index is a Go panic. -/
def invokerSubscriberSubject (subject : String) : SubjectOutcome :=
  let parts := goSplitDot subject
  match goIndex parts 1 with
  | Except.error e => SubjectOutcome.panicked e
  | Except.ok workflowName =>
    match goIndex parts 2 with
    | Except.error e => SubjectOutcome.panicked e
    | Except.ok idStr =>
      match goParseUint64 idStr with
      | none => SubjectOutcome.dropped
      | some id => SubjectOutcome.invoked workflowName id

/-! ## Theorems for C10 and C5 -/

/-- C10: `MD5Sum.Scan` errors on every non-byte-slice value and on every byte
slice shorter than 16 bytes; on a byte slice of length at least 16 it succeeds
and stores exactly the first 16 bytes, truncating longer input. -/
theorem md5sum_scan_spec (self b : List UInt8) (t : String)
    (h : self.length = 16) :
    (md5sumScan self (GoValue.other t)).2.isSome = true
    ∧ (b.length < 16 → (md5sumScan self (GoValue.bytes b)).2.isSome = true)
    ∧ (16 ≤ b.length → md5sumScan self (GoValue.bytes b) = (b.take 16, none)) := by
  refine ⟨rfl, ?_, ?_⟩
  · intro hb
    have hmin : min self.length b.length = b.length := by omega
    simp only [md5sumScan, hmin]
    have hne : ¬ b.length = self.length := by omega
    simp [hne]
  · intro hb
    have hmin : min self.length b.length = self.length := by omega
    simp only [md5sumScan, hmin]
    have hdrop : self.drop self.length = [] := by
      simp
    simp [hdrop, h]

/-- Witness for C10 at a concrete receiver and inputs. -/
theorem md5sum_scan_spec_witness :
    (List.replicate 16 (0 : UInt8)).length = 16
    ∧ ((md5sumScan (List.replicate 16 (0 : UInt8)) (GoValue.other "string")).2.isSome = true
      ∧ ((List.replicate 17 (1 : UInt8)).length < 16 →
          (md5sumScan (List.replicate 16 (0 : UInt8))
            (GoValue.bytes (List.replicate 17 (1 : UInt8)))).2.isSome = true)
      ∧ (16 ≤ (List.replicate 17 (1 : UInt8)).length →
          md5sumScan (List.replicate 16 (0 : UInt8))
              (GoValue.bytes (List.replicate 17 (1 : UInt8)))
            = ((List.replicate 17 (1 : UInt8)).take 16, none))) :=
  ⟨by decide, md5sum_scan_spec _ _ _ (by decide)⟩

/-- C5 counterexample: the subject `invoke` has a single dot-separated
segment, and the subscriber panics on it (Go index out of range) instead of
dropping the message, so the subscriber is not total over subject strings. -/
theorem invoker_subscriber_subject_panics :
    (goSplitDot "invoke").length = 1
    ∧ invokerSubscriberSubject "invoke"
        = SubjectOutcome.panicked "index out of range" := by
  decide

/-- C5 amended: on every subject with at least three dot-separated segments
the subscriber never panics, and whenever the third segment fails the numeric
parse the message is dropped. -/
theorem invoker_subscriber_subject_total (subject : String)
    (h : 3 ≤ (goSplitDot subject).length) :
    (invokerSubscriberSubject subject).isPanic = false
    ∧ (∀ idStr, (goSplitDot subject).get? 2 = some idStr →
        goParseUint64 idStr = none →
        invokerSubscriberSubject subject = SubjectOutcome.dropped) := by
  have h1 : 1 < (goSplitDot subject).length := by omega
  have h2 : 2 < (goSplitDot subject).length := by omega
  constructor
  · simp only [invokerSubscriberSubject, goIndex, h1, h2, dif_pos]
    cases goParseUint64 ((goSplitDot subject).get ⟨2, h2⟩) <;> rfl
  · intro idStr hget hparse
    have hgetEq : (goSplitDot subject).get ⟨2, h2⟩ = idStr := by
      have := List.get?_eq_get h2
      rw [hget] at this
      exact (Option.some.injEq _ _).mp this.symm
    simp only [invokerSubscriberSubject, goIndex, h1, h2, dif_pos, hgetEq, hparse]

/-- Witness for the amended C5 on a well-formed subject. -/
theorem invoker_subscriber_subject_total_witness :
    3 ≤ (goSplitDot "workflow.foo.12.invoke").length
    ∧ ((invokerSubscriberSubject "workflow.foo.12.invoke").isPanic = false
      ∧ (∀ idStr, (goSplitDot "workflow.foo.12.invoke").get? 2 = some idStr →
          goParseUint64 idStr = none →
          invokerSubscriberSubject "workflow.foo.12.invoke" = SubjectOutcome.dropped)) :=
  ⟨by decide, invoker_subscriber_subject_total "workflow.foo.12.invoke" (by decide)⟩

/-! ## Nomad event consumer (src/unnamed/part_002) -/

/-- Nomad `Allocation.ClientTerminalStatus`: the client statuses that are
terminal are `complete`, `failed` and `lost`. -/
def clientTerminalStatus (s : String) : Bool :=
  s == "complete" || s == "failed" || s == "lost"

/-- The fields of a Nomad allocation used by
`NomadEventConsumer.handleNomadAllocationEvent`: client status, the job id
string, and `ModifyTime` in nanoseconds since the epoch. -/
structure Alloc where
  clientStatus : String
  jobID : String
  modifyTime : Int
deriving DecidableEq

/-- The `domain.Run` row as used by the allocation handler: the Nomad job id,
the stored success and failure fact values, and the optional `finished_at`
timestamp, stored as the `(seconds, nanoseconds)` pair that
`time.Unix(ModifyTime / 1e9, ModifyTime % 1e9)` builds. -/
structure RunRow where
  nomadJobID : Nat
  success : String
  failure : String
  finishedAt : Option (Int × Int)
deriving DecidableEq

/-- The observable behaviour of one call to
`NomadEventConsumer.handleNomadAllocationEvent`: the run value passed to
`RunService.Update` (if the call was made), the `(run id, fact value)` pairs
given to `MessageQueueService.Publish`, the job ids given to
`NomadClient.JobsDeregister`, and the returned error. -/
structure HandlerOut where
  updatedRun : Option RunRow
  published : List (Nat × String)
  deregistered : List Nat
  err : Option String
deriving DecidableEq

/-- `NomadEventConsumer.handleNomadAllocationEvent` from
`src/unnamed/part_002` lines 92-151.

External calls are oracles: `parsedId` is the result of
`uuid.Parse alloc.jobID` (UUIDs modelled as naturals), `runLookup` the result
of `RunService.GetByNomadJobId`, and `updateErr`, `publishErr`, `deregErr`
the errors returned by the update, publish and deregister calls.
`json.Marshal` of a plain fact value cannot fail and is omitted.  The code
returns `nil` (ignoring the event) when the status is not client-terminal,
when the job id is not a UUID, when no Run matches, and when the terminal
status is neither `complete` nor `failed`; only in the remaining cases does
it stamp `finished_at`, update the run, publish the fact and deregister the
job, propagating the first error. -/
def handleNomadAllocationEvent (alloc : Alloc) (parsedId : Option Nat)
    (runLookup : Option RunRow) (updateErr publishErr deregErr : Option String) :
    HandlerOut :=
  if !(clientTerminalStatus alloc.clientStatus) then
    { updatedRun := none, published := [], deregistered := [], err := none }
  else
    match parsedId with
    | none => { updatedRun := none, published := [], deregistered := [], err := none }
    | some id =>
      match runLookup with
      | none => { updatedRun := none, published := [], deregistered := [], err := none }
      | some run =>
        let fact : Option String :=
          if alloc.clientStatus == "complete" then some run.success
          else if alloc.clientStatus == "failed" then some run.failure
          else none
        match fact with
        | none => { updatedRun := none, published := [], deregistered := [], err := none }
        | some v =>
          let modifyTime := (alloc.modifyTime.tdiv 1000000000,
                             alloc.modifyTime.tmod 1000000000)
          let run2 : RunRow := { run with finishedAt := some modifyTime }
          match updateErr with
          | some e => { updatedRun := some run2, published := [], deregistered := [],
                        err := some e }
          | none =>
            match publishErr with
            | some e => { updatedRun := some run2, published := [(id, v)],
                          deregistered := [], err := some e }
            | none =>
              { updatedRun := some run2, published := [(id, v)],
                deregistered := [run2.nomadJobID], err := deregErr }

/-- `true` when the handler called `RunService.Update` with a run whose
`finished_at` is set. -/
def runFinishedSet (o : Option RunRow) : Bool :=
  match o with
  | some r => r.finishedAt.isSome
  | none => false

/-! ## Event consumer cursor (src/unnamed/part_002 lines 30-70) -/

/-- The starting cursor of `NomadEventConsumer.Start`: the persisted last
processed index plus one; when the cursor table is empty
(`pgx.ErrNoRows`) the Go zero value `0` is used, giving `1`. -/
def startCursor : Option Nat → Nat
  | some last => last + 1
  | none => 0 + 1

/-- One batch from the Nomad event stream as consumed by the loop in
`NomadEventConsumer.Start`: its index, whether the stream delivered an error
in place of the batch, and whether processing one of its events fails. -/
structure EventsBatch where
  index : Nat
  streamErr : Bool
  procErr : Bool
deriving DecidableEq

/-- The cursor loop of `NomadEventConsumer.Start` lines 46-69 over a finite
prefix of the stream.  Returns the final cursor and the indices of the
batches whose events were handed to `processNomadEvent`.  A stream error
returns immediately; a batch whose index is below the cursor is skipped; a
processing error returns after attempting that batch, without advancing the
cursor; otherwise the cursor advances to the batch index. -/
def consumeRun (cursor : Nat) : List EventsBatch → Nat × List Nat
  | [] => (cursor, [])
  | b :: rest =>
    if b.streamErr then (cursor, [])
    else if b.index < cursor then consumeRun cursor rest
    else if b.procErr then (cursor, [b.index])
    else ((consumeRun b.index rest).1, b.index :: (consumeRun b.index rest).2)

/-- The final cursor never decreases below the starting cursor. -/
theorem consumeRun_cursor_mono (cursor : Nat) (bs : List EventsBatch) :
    cursor ≤ (consumeRun cursor bs).1 := by
  induction bs generalizing cursor with
  | nil => exact Nat.le_refl _
  | cons b rest ih =>
    simp only [consumeRun]
    split
    · exact Nat.le_refl _
    · split
      · exact ih cursor
      · split
        · exact Nat.le_refl _
        · have hge : cursor ≤ b.index := by omega
          exact Nat.le_trans hge (ih b.index)

/-- Every processed batch has index at least the cursor in force when it was
reached. -/
theorem consumeRun_processed_ge (cursor : Nat) (bs : List EventsBatch) (j : Nat)
    (hj : j ∈ (consumeRun cursor bs).2) : cursor ≤ j := by
  induction bs generalizing cursor with
  | nil => simp [consumeRun] at hj
  | cons b rest ih =>
    simp only [consumeRun] at hj
    by_cases hs : b.streamErr
    · simp [hs] at hj
    · by_cases hlt : b.index < cursor
      · simp only [hs, hlt] at hj
        simp at hj
        exact ih cursor hj
      · by_cases hp : b.procErr
        · simp [hs, hlt, hp] at hj
          omega
        · simp [hs, hlt, hp] at hj
          rcases hj with heq | hj2
          · omega
          · have := ih b.index hj2
            omega

/-! ## Theorems for C2, C3, C4 -/

/-- C3: when the event consumer handles a terminal allocation event for a
known Run and the Run update succeeds, it publishes exactly the success fact
of the Run when the client status is `complete`, exactly the failure fact
when it is `failed`, and no fact for any other terminal status. -/
theorem handle_alloc_publishes (alloc : Alloc) (i : Nat) (run : RunRow)
    (publishErr deregErr : Option String)
    (hterm : clientTerminalStatus alloc.clientStatus = true) :
    (alloc.clientStatus = "complete" →
      (handleNomadAllocationEvent alloc (some i) (some run) none publishErr deregErr).published
        = [(i, run.success)])
    ∧ (alloc.clientStatus = "failed" →
      (handleNomadAllocationEvent alloc (some i) (some run) none publishErr deregErr).published
        = [(i, run.failure)])
    ∧ (alloc.clientStatus ≠ "complete" → alloc.clientStatus ≠ "failed" →
      (handleNomadAllocationEvent alloc (some i) (some run) none publishErr deregErr).published
        = []) := by
  refine ⟨?_, ?_, ?_⟩
  · intro hc
    have hct : clientTerminalStatus "complete" = true := by decide
    simp only [handleNomadAllocationEvent, hc]
    cases publishErr <;> simp [hct]
  · intro hc
    have hct : clientTerminalStatus "failed" = true := by decide
    simp only [handleNomadAllocationEvent, hc]
    cases publishErr <;> simp [hct]
  · intro hc hf
    have hc' : (alloc.clientStatus == "complete") = false := by
      simpa using hc
    have hf' : (alloc.clientStatus == "failed") = false := by
      simpa using hf
    simp [handleNomadAllocationEvent, hterm, hc', hf']

/-- Witness for C3 at a complete allocation of a known Run. -/
theorem handle_alloc_publishes_witness :
    clientTerminalStatus "complete" = true
    ∧ (("complete" : String) = "complete" →
      (handleNomadAllocationEvent ⟨"complete", "u", 5⟩ (some 7) (some ⟨7, "s", "f", none⟩)
          none none none).published = [(7, ("s" : String))])
    ∧ (("complete" : String) = "failed" →
      (handleNomadAllocationEvent ⟨"complete", "u", 5⟩ (some 7) (some ⟨7, "s", "f", none⟩)
          none none none).published = [(7, ("f" : String))])
    ∧ (("complete" : String) ≠ "complete" → ("complete" : String) ≠ "failed" →
      (handleNomadAllocationEvent ⟨"complete", "u", 5⟩ (some 7) (some ⟨7, "s", "f", none⟩)
          none none none).published = []) :=
  ⟨by decide, (handle_alloc_publishes ⟨"complete", "u", 5⟩ 7 ⟨7, "s", "f", none⟩
      none none (by decide)).1,
    (handle_alloc_publishes ⟨"complete", "u", 5⟩ 7 ⟨7, "s", "f", none⟩
      none none (by decide)).2.1,
    (handle_alloc_publishes ⟨"complete", "u", 5⟩ 7 ⟨7, "s", "f", none⟩
      none none (by decide)).2.2⟩

/-- C2 counterexample: `lost` is a client-terminal status, yet for a known
Run the allocation handler returns without updating the Run at all, so
`finished_at` is not set, contradicting the claim that every client-terminal
status leads to `finished_at` being set. -/
theorem handle_alloc_lost_no_finish :
    clientTerminalStatus "lost" = true
    ∧ (handleNomadAllocationEvent ⟨"lost", "u", 5⟩ (some 7) (some ⟨7, "s", "f", none⟩)
        none none none).updatedRun = none := by
  decide

/-- C2 amended: for every Run whose allocation event carries client status
`complete` or `failed` (and whose update succeeds), the allocation handler
sets `finished_at` on the Run, and at most one of the success and failure
facts is published; for the remaining terminal status `lost` the handler
leaves the Run untouched. -/
theorem handle_alloc_terminal_closure (alloc : Alloc) (i : Nat) (run : RunRow)
    (publishErr deregErr : Option String)
    (hstat : alloc.clientStatus = "complete" ∨ alloc.clientStatus = "failed") :
    runFinishedSet
        (handleNomadAllocationEvent alloc (some i) (some run) none publishErr deregErr).updatedRun
      = true
    ∧ (handleNomadAllocationEvent alloc (some i) (some run) none publishErr deregErr).published.length
      ≤ 1
    ∧ (handleNomadAllocationEvent ⟨"lost", alloc.jobID, alloc.modifyTime⟩ (some i) (some run)
        none publishErr deregErr).updatedRun = none := by
  have hctc : clientTerminalStatus "complete" = true := by decide
  have hctf : clientTerminalStatus "failed" = true := by decide
  refine ⟨?_, ?_, ?_⟩
  · rcases hstat with h | h <;>
      simp only [handleNomadAllocationEvent, h] <;>
      cases publishErr <;>
      simp [runFinishedSet, hctc, hctf]
  · rcases hstat with h | h <;>
      simp only [handleNomadAllocationEvent, h] <;>
      cases publishErr <;>
      simp [hctc, hctf]
  · simp [handleNomadAllocationEvent, clientTerminalStatus]

/-- Witness for the amended C2 at a completed allocation. -/
theorem handle_alloc_terminal_closure_witness :
    (("complete" : String) = "complete" ∨ ("complete" : String) = "failed")
    ∧ (runFinishedSet
        (handleNomadAllocationEvent ⟨"complete", "u", 5⟩ (some 7) (some ⟨7, "s", "f", none⟩)
          none none none).updatedRun = true
      ∧ (handleNomadAllocationEvent ⟨"complete", "u", 5⟩ (some 7) (some ⟨7, "s", "f", none⟩)
          none none none).published.length ≤ 1
      ∧ (handleNomadAllocationEvent ⟨"lost", "u", 5⟩ (some 7) (some ⟨7, "s", "f", none⟩)
          none none none).updatedRun = none) :=
  ⟨Or.inl rfl, handle_alloc_terminal_closure ⟨"complete", "u", 5⟩ 7 ⟨7, "s", "f", none⟩
    none none (Or.inl rfl)⟩

/-- C4: the processed-index cursor starts at the persisted last index plus
one, never decreases over a run of the consume loop, and every batch whose
index is strictly below the starting cursor is skipped: every processed
index is at least the cursor. -/
theorem cursor_monotone_skip (last : Nat) (cursor : Nat) (bs : List EventsBatch)
    (j : Nat) (hj : j ∈ (consumeRun cursor bs).2) :
    startCursor (some last) = last + 1
    ∧ startCursor none = 1
    ∧ cursor ≤ (consumeRun cursor bs).1
    ∧ cursor ≤ j :=
  ⟨rfl, rfl, consumeRun_cursor_mono cursor bs, consumeRun_processed_ge cursor bs j hj⟩

/-- Witness for C4 on a concrete stream prefix with a re-emitted batch. -/
theorem cursor_monotone_skip_witness :
    7 ∈ (consumeRun 6 [⟨5, false, false⟩, ⟨7, false, false⟩]).2
    ∧ (startCursor (some 5) = 6
      ∧ startCursor none = 1
      ∧ 6 ≤ (consumeRun 6 [⟨5, false, false⟩, ⟨7, false, false⟩]).1
      ∧ 6 ≤ 7) :=
  ⟨by decide, cursor_monotone_skip 5 6 [⟨5, false, false⟩, ⟨7, false, false⟩] 7 (by decide)⟩

/-! ## Step-instance transaction (src/unnamed/part_001 lines 146-242) -/

/-- A `step_instances` row as built by `InvokerCmd.invokeWorkflowStep`:
UUIDs are modelled as naturals, timestamps as integers, and the `Certs`
payload is omitted (it is never inspected by the claims). -/
structure StepInstanceRow where
  id : Nat
  workflowInstanceId : Nat
  name : String
  finishedAt : Option Int
deriving DecidableEq

/-- The database state visible to the invoker: the `step_instances` table. -/
structure DBState where
  stepInstances : List StepInstanceRow
deriving DecidableEq

/-- The `SELECT ... WHERE name = ? AND workflow_instance_id = ? LIMIT 1` of
`InvokerCmd.invokeWorkflowStep` lines 152-163, with `sql.ErrNoRows`
modelled as `none`. -/
def findStepInstance (s : DBState) (name : String) (wfId : Nat) :
    Option StepInstanceRow :=
  s.stepInstances.find? (fun i => i.name == name && i.workflowInstanceId == wfId)

/-- `bun.DB.RunInTx`: run the body on the current state; on success commit
the new state, on error roll back to the original state and return the
error. -/
def runInTx (s : DBState) (body : DBState → Except String DBState) :
    DBState × Option String :=
  match body s with
  | Except.ok s2 => (s2, none)
  | Except.error e => (s, some e)

/-- `InvokerCmd.insertStepInstance` lines 227-242: append the row. -/
def insertStepInstance (s : DBState) (inst : StepInstanceRow) : DBState :=
  { s with stepInstances := s.stepInstances ++ [inst] }

/-- The `UPDATE ... WHERE PK` of the non-runnable branch, stamping
`finished_at`. -/
def updateFinishedAt (s : DBState) (id : Nat) (now : Int) : DBState :=
  { s with
    stepInstances := s.stepInstances.map fun r =>
      if r.id == id then { r with finishedAt := some now } else r }

/-- The observable outcome of `InvokerCmd.invokeWorkflowStep` of
`src/unnamed/part_001`: final database state, the job ids passed to
`Jobs().Register`, the job ids passed to `Jobs().Deregister`, and the
returned error. -/
structure StepTxOut where
  db : DBState
  registered : List Nat
  deregistered : List Nat
  err : Option String
deriving DecidableEq

/-- `InvokerCmd.invokeWorkflowStep` from `src/unnamed/part_001` lines
146-225, after the limiter and the logging augmentation.

`runnable` is `step.IsRunnable()`; `newId` is the fresh UUID drawn by
`uuid.New()`; `registerErr` and `deregisterErr` are the job-runner call
results; `now` is `time.Now()`.  In the runnable branch the row insert and
the `Register` call run inside one `RunInTx` body, so a `Register` error
rolls the insert back; `Register` itself has still been called with the
instance id, since the job runner is not transactional.  In the
non-runnable branch with an existing row, `Deregister` and the
`finished_at` update run in one transaction. -/
def invokeWorkflowStepTx (s : DBState) (wfId : Nat) (stepName : String)
    (runnable : Bool) (newId : Nat) (registerErr deregisterErr : Option String)
    (now : Int) : StepTxOut :=
  let existing := findStepInstance s stepName wfId
  if runnable then
    let inst := existing.getD
      { id := newId, workflowInstanceId := wfId, name := stepName, finishedAt := none }
    let txr := runInTx s (fun st =>
      match registerErr with
      | some e => Except.error e
      | none => Except.ok (insertStepInstance st inst))
    { db := txr.1, registered := [inst.id], deregistered := [], err := txr.2 }
  else
    match existing with
    | none => { db := s, registered := [], deregistered := [], err := none }
    | some inst =>
      let txr := runInTx s (fun st =>
        match deregisterErr with
        | some e => Except.error e
        | none => Except.ok (updateFinishedAt st inst.id now))
      { db := txr.1, registered := [], deregistered := [inst.id], err := txr.2 }

/-! ## Invoker variant 1: certificate publishing and step loops
(src/src/invoker.go lines 122-188, src/unnamed/part_001 lines 130-144) -/

/-- The fields of a `workflowStep` used by the first variant of
`InvokerCmd.invokeWorkflowStep` (`src/src/invoker.go`): the dereferenced
`*step.Type` and the success and failure certificate templates. -/
structure WorkflowStepV1 where
  ty : String
  success : String
  failure : String
deriving DecidableEq

/-- The `cert` topic `workflow.<name>.<id>.cert`. -/
def certTopic (workflowName : String) (workflowId : Nat) : String :=
  "workflow." ++ workflowName ++ "." ++ toString workflowId ++ ".cert"

/-- The observable outcome of the first-variant
`InvokerCmd.invokeWorkflowStep`: the `(topic, certificate)` pairs published
and whether an error was returned. -/
structure StepV1Out where
  published : List (String × String)
  err : Bool
deriving DecidableEq

/-- `InvokerCmd.invokeWorkflowStep` from `src/src/invoker.go` lines 143-188.

`unmarshalOk` is whether `json.Unmarshal` of the nomad job succeeds,
`registerErr` whether `Jobs().Register` errors, `buildErr` whether
`nixBuild` errors.  On a nomad step whose job JSON fails to unmarshal the
function returns early, before the certificate publish; otherwise it
publishes the failure certificate if the step errored and the success
certificate if not, then returns the error. -/
def invokeWorkflowStepV1 (workflowName : String) (workflowId : Nat)
    (step : WorkflowStepV1) (unmarshalOk registerErr buildErr : Bool) :
    StepV1Out :=
  if step.ty == "nomad" then
    if unmarshalOk then
      { published := [(certTopic workflowName workflowId,
          if registerErr then step.failure else step.success)],
        err := registerErr }
    else
      { published := [], err := true }
  else
    { published := [(certTopic workflowName workflowId,
        if buildErr then step.failure else step.success)],
      err := buildErr }

/-- The step loop of `InvokerCmd.invokeWorkflow` from `src/src/invoker.go`
lines 128-138: steps are `(name, job)` pairs; a step whose `Job` is `nil` is
skipped; `stepErr` says whether invoking a step returns an error; the loop
returns at the first error.  Result: the names invoked, and whether the
loop returned an error. -/
def invokeWorkflowV1 : List (String × Option String) → (String → Bool) →
    List String × Bool
  | [], _ => ([], false)
  | (_, none) :: rest, stepErr => invokeWorkflowV1 rest stepErr
  | (n, some _) :: rest, stepErr =>
    if stepErr n then ([n], true)
    else ((invokeWorkflowV1 rest stepErr).1.cons n, (invokeWorkflowV1 rest stepErr).2)

/-- The step loop of `InvokerCmd.invokeWorkflow` from `src/unnamed/part_001`
lines 136-141: every step is invoked and the loop returns at the first
error.  Result: the names invoked, and whether the loop returned an
error. -/
def invokeWorkflowV2 : List String → (String → Bool) → List String × Bool
  | [], _ => ([], false)
  | n :: rest, stepErr =>
    if stepErr n then ([n], true)
    else ((invokeWorkflowV2 rest stepErr).1.cons n, (invokeWorkflowV2 rest stepErr).2)

/-! ## Theorems for C1, C6, C7 -/

/-- C1: in the runnable branch of `invokeWorkflowStep`, the step-instance
insert and the job registration execute in the same transaction: when
`Register` errors the transaction rolls back and the database is unchanged
with the error propagated, and when `Register` succeeds the new row is
committed. -/
theorem invoke_step_register_tx (s : DBState) (wfId : Nat) (stepName : String)
    (newId : Nat) (now : Int) (e : String)
    (hfresh : findStepInstance s stepName wfId = none) :
    (invokeWorkflowStepTx s wfId stepName true newId (some e) none now).db = s
    ∧ (invokeWorkflowStepTx s wfId stepName true newId (some e) none now).err = some e
    ∧ (invokeWorkflowStepTx s wfId stepName true newId (some e) none now).registered
      = [newId]
    ∧ (invokeWorkflowStepTx s wfId stepName true newId none none now).db.stepInstances
      = s.stepInstances ++
        [{ id := newId, workflowInstanceId := wfId, name := stepName, finishedAt := none }] := by
  refine ⟨?_, ?_, ?_, ?_⟩ <;>
    simp [invokeWorkflowStepTx, hfresh, runInTx, insertStepInstance]

/-- Witness for C1 on an empty table. -/
theorem invoke_step_register_tx_witness :
    findStepInstance ⟨[]⟩ "build" 3 = none
    ∧ ((invokeWorkflowStepTx ⟨[]⟩ 3 "build" true 9 (some "boom") none 0).db = ⟨[]⟩
      ∧ (invokeWorkflowStepTx ⟨[]⟩ 3 "build" true 9 (some "boom") none 0).err = some "boom"
      ∧ (invokeWorkflowStepTx ⟨[]⟩ 3 "build" true 9 (some "boom") none 0).registered = [9]
      ∧ (invokeWorkflowStepTx ⟨[]⟩ 3 "build" true 9 none none 0).db.stepInstances
        = [] ++ [{ id := 9, workflowInstanceId := 3, name := "build", finishedAt := none }]) :=
  ⟨by decide, invoke_step_register_tx ⟨[]⟩ 3 "build" 9 0 "boom" (by decide)⟩

/-- C6 counterexample: a nomad-typed step whose job JSON fails to unmarshal
returns an error without publishing any certificate, so it is not the case
that every processed step publishes a certificate. -/
theorem invoke_step_v1_no_cert_on_unmarshal :
    (invokeWorkflowStepV1 "wf" 1 ⟨"nomad", "sc", "fc"⟩ false false false).published = []
    ∧ (invokeWorkflowStepV1 "wf" 1 ⟨"nomad", "sc", "fc"⟩ false false false).err = true := by
  decide

/-- C6 amended: for every step except a nomad-typed one whose job JSON
fails to unmarshal, the first-variant `invokeWorkflowStep` publishes exactly
one certificate onto `workflow.<name>.<id>.cert`: the failure template when
the step errored and the success template otherwise. -/
theorem invoke_step_v1_publishes_cert (workflowName : String) (workflowId : Nat)
    (step : WorkflowStepV1) (unmarshalOk registerErr buildErr : Bool)
    (h : step.ty = "nomad" → unmarshalOk = true) :
    (invokeWorkflowStepV1 workflowName workflowId step unmarshalOk registerErr buildErr).published
      = [(certTopic workflowName workflowId,
          if (invokeWorkflowStepV1 workflowName workflowId step unmarshalOk registerErr buildErr).err
          then step.failure else step.success)] := by
  by_cases hn : step.ty = "nomad"
  · have hu : unmarshalOk = true := h hn
    simp [invokeWorkflowStepV1, hn, hu]
  · have hn' : (step.ty == "nomad") = false := by
      simpa using hn
    simp [invokeWorkflowStepV1, hn']

/-- Witness for the amended C6 on a failing non-nomad build step. -/
theorem invoke_step_v1_publishes_cert_witness :
    ((⟨"", "sc", "fc"⟩ : WorkflowStepV1).ty = "nomad" → false = true)
    ∧ (invokeWorkflowStepV1 "wf" 1 ⟨"", "sc", "fc"⟩ false false true).published
      = [(certTopic "wf" 1,
          if (invokeWorkflowStepV1 "wf" 1 ⟨"", "sc", "fc"⟩ false false true).err
          then ("fc" : String) else "sc")] :=
  ⟨by decide, invoke_step_v1_publishes_cert "wf" 1 ⟨"", "sc", "fc"⟩ false false true (by decide)⟩

/-- C7 counterexample: in the later invoker variant, with two steps where
the first errors, the loop invokes only the first step and returns the
error, so the later variant does not continue through all steps. -/
theorem invoke_workflow_v2_short_circuits :
    invokeWorkflowV2 ["a", "b"] (fun n => n == "a") = (["a"], true) := by
  decide

/-- C7 amended: both invoker variants stop their step loop at the first step
whose invocation errors: with error-free steps `pre` before an erroring step
`n`, both loops invoke exactly `pre ++ [n]` and return the error, leaving
every later step uninvoked. -/
theorem invoke_workflow_loops_stop_at_first_error (pre post : List String)
    (n : String) (stepErr : String → Bool)
    (hpre : ∀ m ∈ pre, stepErr m = false) (hn : stepErr n = true) :
    invokeWorkflowV2 (pre ++ n :: post) stepErr = (pre ++ [n], true)
    ∧ invokeWorkflowV1
        ((pre.map (fun m => (m, some "job")) ++ (n, some "job") ::
          post.map (fun m => (m, some "job")))) stepErr
      = (pre ++ [n], true) := by
  induction pre with
  | nil =>
    simp [invokeWorkflowV2, invokeWorkflowV1, hn]
  | cons m rest ih =>
    have hm : stepErr m = false := hpre m (List.mem_cons_self m rest)
    have hrest : ∀ k ∈ rest, stepErr k = false :=
      fun k hk => hpre k (List.mem_cons_of_mem m hk)
    have hih := ih hrest
    constructor
    · simp only [List.cons_append, invokeWorkflowV2, hm]
      simp [hih.1]
    · simp only [List.map_cons, List.cons_append, invokeWorkflowV1, hm]
      simp [hih.2]

/-- Witness for the amended C7 on a two-step workflow whose second step
errors. -/
theorem invoke_workflow_loops_stop_at_first_error_witness :
    (∀ m ∈ ["a"], (fun k => k == "b") m = false)
    ∧ (fun k => k == "b") "b" = true
    ∧ (invokeWorkflowV2 (["a"] ++ "b" :: ["c"]) (fun k => k == "b")
        = (["a"] ++ ["b"], true)
      ∧ invokeWorkflowV1
          ((["a"].map (fun m => (m, some "job")) ++ ("b", some "job") ::
            ["c"].map (fun m => (m, some "job")))) (fun k => k == "b")
        = (["a"] ++ ["b"], true)) :=
  ⟨by decide, by decide,
    invoke_workflow_loops_stop_at_first_error ["a"] ["c"] "b" (fun k => k == "b")
      (by decide) (by decide)⟩

/-! ## Limiter discipline (src/unnamed/part_001 lines 46-49 and 130-148) -/

/-- The limit handed to `priority.NewLimiter` in `InvokerCmd.init` line 48:
one concurrent invocation by default. -/
def defaultLimiterCapacity : Nat := 1

/-- Events in the execution of one `invokeWorkflow` call of
`src/unnamed/part_001`: the `EvaluateWorkflow` call (line 131), the
`limiter.Wait` at the top of `invokeWorkflowStep` (line 147), the body of a
step invocation, and the deferred `limiter.Finish` (line 148). -/
inductive InvEvent where
  | evaluate
  | acquire
  | stepWork (name : String)
  | release
deriving DecidableEq

/-- The event trace of the step loop of `invokeWorkflow` lines 136-141:
each step invocation acquires the limiter, runs its body, and releases the
limiter through `defer` on every exit path; an erroring step ends the
loop. -/
def stepsTraceV2 (stepErr : String → Bool) : List String → List InvEvent
  | [] => []
  | n :: rest =>
    [InvEvent.acquire, InvEvent.stepWork n, InvEvent.release]
      ++ (if stepErr n then [] else stepsTraceV2 stepErr rest)

/-- The event trace of one `invokeWorkflow` call of `src/unnamed/part_001`
lines 130-144: `EvaluateWorkflow` runs first; when it fails nothing else
runs, otherwise the step loop follows. -/
def invokeWorkflowTraceV2 (evalFails : Bool) (stepErr : String → Bool)
    (steps : List String) : List InvEvent :=
  if evalFails then [InvEvent.evaluate]
  else InvEvent.evaluate :: stepsTraceV2 stepErr steps

/-- The contribution of one event to the number of limiter slots held. -/
def slotDelta : InvEvent → Int
  | InvEvent.acquire => 1
  | InvEvent.release => -1
  | _ => 0

/-- Number of limiter slots held after a sequence of events. -/
def slotBalance (tr : List InvEvent) : Int :=
  (tr.map slotDelta).sum

theorem slotBalance_append (a b : List InvEvent) :
    slotBalance (a ++ b) = slotBalance a + slotBalance b := by
  simp [slotBalance]

/-- The step loop trace is slot-balanced: every acquired slot is released on
every exit path. -/
theorem stepsTraceV2_balanced (stepErr : String → Bool) (steps : List String) :
    slotBalance (stepsTraceV2 stepErr steps) = 0 := by
  induction steps with
  | nil => rfl
  | cons n rest ih =>
    simp only [stepsTraceV2, slotBalance_append]
    have hblock :
        slotBalance [InvEvent.acquire, InvEvent.stepWork n, InvEvent.release] = 0 := by
      simp [slotBalance, slotDelta]
    by_cases hn : stepErr n
    · simp [hn, slotBalance, slotDelta]
    · simp [hn, hblock, ih]

/-- Every step body in the step loop runs with exactly one limiter slot
held. -/
theorem stepsTraceV2_work_holds_slot (stepErr : String → Bool)
    (steps : List String) (i : Nat) (n : String)
    (h : (stepsTraceV2 stepErr steps).get? i = some (InvEvent.stepWork n)) :
    slotBalance ((stepsTraceV2 stepErr steps).take i) = 1 := by
  induction steps generalizing i with
  | nil => simp [stepsTraceV2] at h
  | cons m rest ih =>
    match i with
    | 0 =>
      simp [stepsTraceV2] at h
    | 1 =>
      simp [stepsTraceV2, slotBalance, slotDelta]
    | 2 =>
      simp [stepsTraceV2] at h
    | (k + 3) =>
      by_cases hm : stepErr m
      · simp [stepsTraceV2, hm] at h
      · simp only [stepsTraceV2, hm, if_neg, Bool.not_eq_true, List.cons_append,
          List.nil_append, List.get?_cons_succ] at h
        have htk : (stepsTraceV2 stepErr (m :: rest)).take (k + 3)
            = [InvEvent.acquire, InvEvent.stepWork m, InvEvent.release]
              ++ (stepsTraceV2 stepErr rest).take k := by
          simp [stepsTraceV2, hm, List.take_succ_cons]
        have hbody := ih k (by simpa [hm] using h)
        rw [htk, slotBalance_append, hbody]
        simp [slotBalance, slotDelta]

/-! ## Logging augmentation addLogging (src/unnamed/part_001 lines 244-303) -/

/-- A piece of a promtail configuration string template: either a literal or
a Nomad environment interpolation of one variable. -/
inductive TmplValue where
  | envTemplate (var : String)
  | literal (s : String)
deriving DecidableEq

/-- The promtail configuration marshalled at lines 248-274, structurally:
server ports, positions file, client endpoint URL, the scrape job name
template, and the static labels (the ten `nomad_*` environment labels plus
the `__path__` glob). -/
structure PromtailConfig where
  httpListenPort : Nat
  grpcListenPort : Nat
  positionsFilename : String
  clientUrl : String
  jobName : List TmplValue
  labels : List (String × TmplValue)
deriving DecidableEq

/-- The concrete promtail configuration built by `addLogging`. -/
def promtailCfg : PromtailConfig :=
  { httpListenPort := 0
    grpcListenPort := 0
    positionsFilename := "/local/positions.yaml"
    clientUrl := "http://172.16.0.20:3100/loki/api/v1/path"
    jobName := [TmplValue.envTemplate "NOMAD_JOB_NAME", TmplValue.literal "-",
                TmplValue.envTemplate "NOMAD_ALLOC_INDEX"]
    labels := [
      ("nomad_alloc_id", TmplValue.envTemplate "NOMAD_ALLOC_ID"),
      ("nomad_alloc_index", TmplValue.envTemplate "NOMAD_ALLOC_INDEX"),
      ("nomad_alloc_name", TmplValue.envTemplate "NOMAD_ALLOC_NAME"),
      ("nomad_dc", TmplValue.envTemplate "NOMAD_DC"),
      ("nomad_group_name", TmplValue.envTemplate "NOMAD_GROUP_NAME"),
      ("nomad_job_id", TmplValue.envTemplate "NOMAD_JOB_ID"),
      ("nomad_job_name", TmplValue.envTemplate "NOMAD_JOB_NAME"),
      ("nomad_job_parent_id", TmplValue.envTemplate "NOMAD_JOB_PARENT_ID"),
      ("nomad_namespace", TmplValue.envTemplate "NOMAD_NAMESPACE"),
      ("nomad_region", TmplValue.envTemplate "NOMAD_REGION"),
      ("__path__", TmplValue.literal "/alloc/logs/*.std*.[0-9]*")] }

/-- The body of a task template: raw embedded text, or the structurally
modelled promtail configuration. -/
inductive TmplBody where
  | rawTmpl (s : String)
  | promtailTmpl (c : PromtailConfig)
deriving DecidableEq

/-- A Nomad task template. -/
structure NomadTemplate where
  destPath : Option String
  embedded : Option TmplBody
deriving DecidableEq

/-- `nomad.TaskLifecycle`. -/
structure TaskLifecycle where
  hook : String
  sidecar : Bool
deriving DecidableEq

/-- `nomad.Resources`, the fields `addLogging` sets. -/
structure TaskResources where
  cpu : Option Nat
  memoryMB : Option Nat
deriving DecidableEq

/-- A Nomad task, with the driver config narrowed to the `packages` and
`command` entries this code uses. -/
structure NomadTask where
  name : String
  driver : String
  lifecycle : Option TaskLifecycle
  resources : Option TaskResources
  configPackages : List String
  configCommand : List String
  templates : List NomadTemplate
deriving DecidableEq

/-- A Nomad task group. -/
structure NomadTaskGroup where
  tasks : List NomadTask
deriving DecidableEq

/-- A Nomad job, narrowed to the fields `addLogging` touches. -/
structure NomadJob where
  id : Option String
  taskGroups : List NomadTaskGroup
deriving DecidableEq

/-- The promtail sidecar task appended by `addLogging` lines 280-299. -/
def promtailTask : NomadTask :=
  { name := "promtail"
    driver := "nix"
    lifecycle := some { hook := "prestart", sidecar := true }
    resources := some { cpu := some 100, memoryMB := some 100 }
    configPackages := ["github:nixos/nixpkgs/nixos-21.05#grafana-loki"]
    configCommand := ["/bin/promtail", "-config.file", "local/config.yaml"]
    templates := [{ destPath := some "local/config.yaml"
                    embedded := some (TmplBody.promtailTmpl promtailCfg) }] }

/-- `addLogging` from `src/unnamed/part_001` lines 244-303: appends the
promtail sidecar task to every task group of the job.  The `yaml.Marshal` of
the fixed configuration value cannot fail, so the error return is omitted
and the function is total. -/
def addLogging (job : NomadJob) : NomadJob :=
  { job with
    taskGroups := job.taskGroups.map fun tg =>
      { tg with tasks := tg.tasks ++ [promtailTask] } }

/-! ## Theorems for C8 and C9 -/

/-- C8 counterexample: in the later invoker variant the workflow evaluation
is the first event of the trace and runs with zero limiter slots held, so a
slot is not acquired before the definition is evaluated. -/
theorem evaluate_runs_without_slot :
    (invokeWorkflowTraceV2 false (fun _ => false) ["build"]).get? 0
      = some InvEvent.evaluate
    ∧ slotBalance ((invokeWorkflowTraceV2 false (fun _ => false) ["build"]).take 0) = 0
    ∧ invokeWorkflowTraceV2 false (fun _ => false) ["build"]
      = [InvEvent.evaluate, InvEvent.acquire, InvEvent.stepWork "build",
         InvEvent.release] := by
  refine ⟨rfl, rfl, rfl⟩

/-- C8 amended: the limiter (capacity 1 by default) is acquired at the start
of each step invocation, after the workflow definition has been evaluated:
every step body runs with exactly one slot held, and the slot is released on
every exit path, so the step-loop trace is balanced. -/
theorem step_limiter_discipline (stepErr : String → Bool) (steps : List String)
    (i : Nat) (n : String)
    (h : (stepsTraceV2 stepErr steps).get? i = some (InvEvent.stepWork n)) :
    defaultLimiterCapacity = 1
    ∧ slotBalance ((stepsTraceV2 stepErr steps).take i) = 1
    ∧ slotBalance (stepsTraceV2 stepErr steps) = 0 :=
  ⟨rfl, stepsTraceV2_work_holds_slot stepErr steps i n h,
    stepsTraceV2_balanced stepErr steps⟩

/-- Witness for the amended C8 on a one-step workflow. -/
theorem step_limiter_discipline_witness :
    (stepsTraceV2 (fun _ => false) ["build"]).get? 1
      = some (InvEvent.stepWork "build")
    ∧ (defaultLimiterCapacity = 1
      ∧ slotBalance ((stepsTraceV2 (fun _ => false) ["build"]).take 1) = 1
      ∧ slotBalance (stepsTraceV2 (fun _ => false) ["build"]) = 0) :=
  ⟨by decide, step_limiter_discipline (fun _ => false) ["build"] 1 "build" (by decide)⟩

/-- C9: `addLogging` appends to every task group exactly one extra task —
named `promtail`, with prestart-sidecar lifecycle, 100 CPU and 100 MB
memory, whose embedded configuration scrapes `/alloc/logs/*.std*.[0-9]*`
with the ten `nomad_*` environment labels and the fixed client endpoint —
and leaves all pre-existing tasks unchanged. -/
theorem add_logging_spec (job : NomadJob) (i : Nat) (tg : NomadTaskGroup)
    (h : job.taskGroups.get? i = some tg) :
    (addLogging job).taskGroups.length = job.taskGroups.length
    ∧ (addLogging job).taskGroups.get? i
      = some { tg with tasks := tg.tasks ++ [promtailTask] }
    ∧ promtailTask.name = "promtail"
    ∧ promtailTask.lifecycle = some { hook := "prestart", sidecar := true }
    ∧ promtailTask.resources = some { cpu := some 100, memoryMB := some 100 }
    ∧ promtailTask.templates
      = [{ destPath := some "local/config.yaml",
           embedded := some (TmplBody.promtailTmpl promtailCfg) }]
    ∧ ("__path__", TmplValue.literal "/alloc/logs/*.std*.[0-9]*") ∈ promtailCfg.labels
    ∧ promtailCfg.clientUrl = "http://172.16.0.20:3100/loki/api/v1/path"
    ∧ ([("nomad_alloc_id", "NOMAD_ALLOC_ID"), ("nomad_alloc_index", "NOMAD_ALLOC_INDEX"),
        ("nomad_alloc_name", "NOMAD_ALLOC_NAME"), ("nomad_dc", "NOMAD_DC"),
        ("nomad_group_name", "NOMAD_GROUP_NAME"), ("nomad_job_id", "NOMAD_JOB_ID"),
        ("nomad_job_name", "NOMAD_JOB_NAME"), ("nomad_job_parent_id", "NOMAD_JOB_PARENT_ID"),
        ("nomad_namespace", "NOMAD_NAMESPACE"), ("nomad_region", "NOMAD_REGION")].all
        fun p => promtailCfg.labels.contains (p.1, TmplValue.envTemplate p.2)) = true := by
  refine ⟨?_, ?_, rfl, rfl, rfl, rfl, by decide, rfl, by decide⟩
  · simp [addLogging]
  · have h2 : job.taskGroups[i]? = some tg := by
      rw [← List.get?_eq_getElem?]
      exact h
    simp [addLogging, List.getElem?_map, h2]

/-- Witness for C9 on a job with one task group holding one pre-existing
task. -/
theorem add_logging_spec_witness :
    (NomadJob.mk none [⟨[⟨"work", "exec", none, none, [], [], []⟩]⟩]).taskGroups.get? 0
      = some ⟨[⟨"work", "exec", none, none, [], [], []⟩]⟩
    ∧ ((addLogging (NomadJob.mk none [⟨[⟨"work", "exec", none, none, [], [], []⟩]⟩])).taskGroups.length
        = (NomadJob.mk none [⟨[⟨"work", "exec", none, none, [], [], []⟩]⟩]).taskGroups.length
      ∧ (addLogging (NomadJob.mk none [⟨[⟨"work", "exec", none, none, [], [], []⟩]⟩])).taskGroups.get? 0
        = some ⟨[⟨"work", "exec", none, none, [], [], []⟩] ++ [promtailTask]⟩
      ∧ promtailTask.name = "promtail"
      ∧ promtailTask.lifecycle = some { hook := "prestart", sidecar := true }
      ∧ promtailTask.resources = some { cpu := some 100, memoryMB := some 100 }
      ∧ promtailTask.templates
        = [{ destPath := some "local/config.yaml",
             embedded := some (TmplBody.promtailTmpl promtailCfg) }]
      ∧ ("__path__", TmplValue.literal "/alloc/logs/*.std*.[0-9]*") ∈ promtailCfg.labels
      ∧ promtailCfg.clientUrl = "http://172.16.0.20:3100/loki/api/v1/path"
      ∧ ([("nomad_alloc_id", "NOMAD_ALLOC_ID"), ("nomad_alloc_index", "NOMAD_ALLOC_INDEX"),
          ("nomad_alloc_name", "NOMAD_ALLOC_NAME"), ("nomad_dc", "NOMAD_DC"),
          ("nomad_group_name", "NOMAD_GROUP_NAME"), ("nomad_job_id", "NOMAD_JOB_ID"),
          ("nomad_job_name", "NOMAD_JOB_NAME"), ("nomad_job_parent_id", "NOMAD_JOB_PARENT_ID"),
          ("nomad_namespace", "NOMAD_NAMESPACE"), ("nomad_region", "NOMAD_REGION")].all
          fun p => promtailCfg.labels.contains (p.1, TmplValue.envTemplate p.2)) = true) :=
  ⟨by decide,
    add_logging_spec (NomadJob.mk none [⟨[⟨"work", "exec", none, none, [], [], []⟩]⟩]) 0
      ⟨[⟨"work", "exec", none, none, [], [], []⟩]⟩ (by decide)⟩

end Cicero
